import Mathlib

/-!
Shallow embedding of the `latin-analyzer` microservice
(`app/models.py`, `app/cltk_service.py`, `app/main.py`).

The service wraps the CLTK `NLP` pipeline.  The pipeline itself is a
third-party library; we model it as an abstract value that, given a
text, either raises (an exception rendered as a `String`) or returns a
document holding a list of word objects.  Python attribute presence
(`hasattr` / `getattr` with a default) is modelled with `Option`:
`none` means the attribute is absent on the object.
-/

namespace Interlinear

/-- Model of CLTK's `MorphosyntacticFeatureBundle`.  We model it as
an association list of feature names to values; attribute access on the
bundle is a lookup by name, and Python truthiness (`if not features`) is
emptiness of the bundle.  Kept reducible so list literals elaborate at it. -/
abbrev FeatureBundle : Type := List (String × String)

/-- Attribute lookup `getattr(features, name, None)` on a feature bundle: look the feature
up by name, `none` when the bundle does not carry it. -/
def FeatureBundle.getattr (b : FeatureBundle) (name : String) : Option String :=
  (List.find? (fun p => p.1 == name) b).map (fun p => p.2)

/-- Python truthiness of the bundle: an empty bundle is falsy. -/
def FeatureBundle.isEmpty (b : FeatureBundle) : Bool :=
  List.isEmpty b

/-- Model of `models.MorphologyData`: the eight optional morphological fields. -/
structure MorphologyData where
  case : Option String
  number : Option String
  gender : Option String
  tense : Option String
  voice : Option String
  mood : Option String
  person : Option String
  degree : Option String
deriving Repr, DecidableEq

/-- A CLTK word object (`doc.words[i]`).  `string` is always present on a
CLTK word; the remaining attributes may be absent (`none` = `hasattr`
fails). -/
structure Word where
  string : String
  «lemma» : Option String
  upos : Option String
  features : Option FeatureBundle
  dependency_relation : Option String
  governor : Option Int

/-- A CLTK document, as returned by `nlp.analyze`. -/
structure Doc where
  words : List Word

/-- The CLTK `NLP` pipeline object.  `analyze` either returns a document
or raises an exception, rendered as its string form. -/
structure NLP where
  analyze : String → Except String Doc

/-- Dependency info, the dict built for `WordAnalysis.dependency`. -/
structure DependencyData where
  relation : String
  governor : Option Int
deriving Repr, DecidableEq

/-- Model of `models.WordAnalysis`: the per-word record returned by the service. -/
structure WordAnalysis where
  form : String
  «lemma» : Option String
  pos : Option String
  morphology : Option MorphologyData
  dependency : Option DependencyData
  index : Nat
deriving Repr, DecidableEq

/-- Model of `models.AnalyzeRequest` with its field defaults. -/
structure AnalyzeRequest where
  text : String
  include_morphology : Bool := true
  include_dependencies : Bool := false

/-- Model of `models.AnalyzeResponse`. -/
structure AnalyzeResponse where
  success : Bool
  words : List WordAnalysis
  raw_text : String
  error : Option String

/-- Model of `models.HealthResponse`. -/
structure HealthResponse where
  status : String
  cltk_ready : Bool
  version : String

/-- The state of a `CLTKService` instance: the three instance attributes
set in `__init__` and mutated only by `_ensure_initialized`. -/
structure CLTKService where
  nlp : Option NLP
  attempted : Bool
  init_error : Option String

/-- Constructor `CLTKService.__init__`: no pipeline construction happens here. -/
def CLTKService.mkInit : CLTKService :=
  { nlp := none, attempted := false, init_error := none }

/-- Model of `CLTKService._ensure_initialized`.  Constructing `NLP(language="lat",
suppress_banner=True)` is a library call whose outcome we pass in as
`construct` (`.ok` = the constructed pipeline, `.error` = the string form
of the raised exception).  Returns the new state together with `true`
when a construction attempt was actually performed on this call. -/
def CLTKService.ensureInit (s : CLTKService) (construct : Except String NLP) :
    CLTKService × Bool :=
  if s.nlp.isSome || s.attempted then
    (s, false)
  else
    match construct with
    | .ok pipeline =>
        ({ nlp := some pipeline, attempted := true, init_error := none }, true)
    | .error e =>
        ({ nlp := none, attempted := true, init_error := some e }, true)

/-- Model of `CLTKService.is_ready`: triggers lazy initialization, then reports
whether `self.nlp is not None`.  Returns the new state and the answer. -/
def CLTKService.is_ready (s : CLTKService) (construct : Except String NLP) :
    CLTKService × Bool :=
  let r := s.ensureInit construct
  (r.1, r.1.nlp.isSome)

/-- Model of `CLTKService.get_initialization_error`: pure read of the recorded
error; does not trigger initialization. -/
def CLTKService.get_init_error (s : CLTKService) : Option String :=
  s.init_error

/-- Model of `CLTKService._parse_morphology`: `None` on a falsy bundle, otherwise
the eight fields read off the bundle by attribute lookup. -/
def CLTKService.parse_morphology (features : FeatureBundle) :
    Option MorphologyData :=
  if features.isEmpty then
    none
  else
    some
      { case := features.getattr ("case")
        number := features.getattr ("number")
        gender := features.getattr ("gender")
        tense := features.getattr ("tense")
        voice := features.getattr ("voice")
        mood := features.getattr ("mood")
        person := features.getattr ("person")
        degree := features.getattr ("degree") }

/-- The body of the `for i, word in enumerate(doc.words)` loop of
`analyze_text`, for one word at position `i`. -/
def analyzeWord (i : Nat) (include_morphology include_dependencies : Bool)
    (word : Word) : WordAnalysis :=
  let «lemma» := match word.«lemma» with
    | some v => some v
    | none => none
  let pos := match word.upos with
    | some v => some v
    | none => none
  let morphology_data :=
    if include_morphology then
      match word.features with
      | some f => CLTKService.parse_morphology f
      | none => none
    else none
  let dependency_data :=
    if include_dependencies then
      match word.dependency_relation with
      | some rel => some { relation := rel, governor := word.governor }
      | none => none
    else none
  { form := word.string
    «lemma» := «lemma»
    pos := pos
    morphology := morphology_data
    dependency := dependency_data
    index := i }

/-- The whole loop of `analyze_text`, accumulating records from position
`i` on. -/
def analyzeWords (include_morphology include_dependencies : Bool) :
    Nat → List Word → List WordAnalysis
  | _, [] => []
  | i, w :: ws =>
      analyzeWord i include_morphology include_dependencies w ::
        analyzeWords include_morphology include_dependencies (i + 1) ws

/-- The ways `analyze_text` can raise: the explicit
`RuntimeError("CLTK is not initialized")` guard, or an exception escaping
the `self.nlp.analyze(text=text)` call. -/
inductive AnalysisError where
  | notReady
  | pipelineError (msg : String)
deriving Repr, DecidableEq

/-- String form `str(e)` of an `AnalysisError`. -/
def AnalysisError.str : AnalysisError → String
  | .notReady => "CLTK is not initialized"
  | .pipelineError msg => msg

/-- Model of `CLTKService.analyze_text`: guard on `self.nlp`, run the pipeline,
map every word of `doc.words` to a `WordAnalysis`.  Does not mutate the
service state. -/
def CLTKService.analyze_text (s : CLTKService) (text : String)
    (include_morphology include_dependencies : Bool) :
    Except AnalysisError (List WordAnalysis) :=
  match s.nlp with
  | none => .error .notReady
  | some pipeline =>
      match pipeline.analyze text with
      | .error e => .error (.pipelineError e)
      | .ok doc =>
          .ok (analyzeWords include_morphology include_dependencies 0 doc.words)

/-- What the `/analyze` handler can produce: an `HTTPException` raised
with a status code and detail, or a normal `AnalyzeResponse`. -/
inductive HandlerResult where
  | httpError (status : Nat) (detail : String)
  | response (r : AnalyzeResponse)

/-- The `/analyze` endpoint of `app/main.py`, instrumented: returns the
service state after the request, the handler result, and whether
`cltk_service.analyze_text` was invoked during the request. -/
def analyze_endpoint (s : CLTKService) (construct : Except String NLP)
    (req : AnalyzeRequest) : CLTKService × HandlerResult × Bool :=
  let r := s.is_ready construct
  if r.2 = false then
    (r.1, .httpError 503 ("CLTK service is not ready. Please try again later."), false)
  else
    match r.1.analyze_text req.text req.include_morphology req.include_dependencies with
    | .ok ws =>
        let resp : AnalyzeResponse :=
          { success := true, words := ws, raw_text := req.text, error := none }
        (r.1, .response resp, true)
    | .error e =>
        let resp : AnalyzeResponse :=
          { success := false, words := [], raw_text := req.text, error := some e.str }
        (r.1, .response resp, true)

/-- The `/health` endpoint of `app/main.py`. -/
def health_check (s : CLTKService) (construct : Except String NLP) :
    CLTKService × HealthResponse :=
  let r := s.is_ready construct
  (r.1, { status := "healthy", cltk_ready := r.2, version := "1.0.0" })

/-- The public operations on the shared `cltk_service` instance, each
carrying the outside inputs it needs.  The construction outcome
`construct` is what the `NLP(...)` call would produce if it were reached
during that operation. -/
inductive Op where
  | isReady (construct : Except String NLP)
  | getInitError
  | analyzeText (text : String) (im idep : Bool)
  | analyzeEndpoint (construct : Except String NLP) (req : AnalyzeRequest)
  | healthCheck (construct : Except String NLP)

/-- One operation on the service: the next state, plus how many `NLP`
construction attempts the operation performed (0 or 1). -/
def CLTKService.step (s : CLTKService) : Op → CLTKService × Nat
  | .isReady construct =>
      let r := s.ensureInit construct
      (r.1, if r.2 then 1 else 0)
  | .getInitError => (s, 0)
  | .analyzeText _ _ _ => (s, 0)
  | .analyzeEndpoint construct _ =>
      let r := s.ensureInit construct
      (r.1, if r.2 then 1 else 0)
  | .healthCheck construct =>
      let r := s.ensureInit construct
      (r.1, if r.2 then 1 else 0)

/-- Run a sequence of operations, summing construction attempts. -/
def CLTKService.run (s : CLTKService) : List Op → CLTKService × Nat
  | [] => (s, 0)
  | op :: ops =>
      let r := s.step op
      let rest := r.1.run ops
      (rest.1, r.2 + rest.2)

/-! ## Concrete fixtures used by the witness theorems -/

/-- A fully populated CLTK word object. -/
def wordAmo : Word :=
  { string := "amo", «lemma» := some ("amo"), upos := some ("VERB"),
    features := some [("mood", "Ind")], dependency_relation := some ("root"),
    governor := some 0 }

/-- A one-word document. -/
def testDoc : Doc := { words := [wordAmo] }

/-- A pipeline that analyzes every text to `testDoc`. -/
def testNLP : NLP := { analyze := fun _ => .ok testDoc }

/-- A pipeline whose `analyze` always raises. -/
def failNLP : NLP := { analyze := fun _ => .error ("boom") }

/-- A service whose lazy initialization has already succeeded. -/
def readyService : CLTKService :=
  { nlp := some testNLP, attempted := true, init_error := none }

/-- A ready service whose pipeline raises on every text. -/
def failReadyService : CLTKService :=
  { nlp := some failNLP, attempted := true, init_error := none }

/-- A request with both optional flags left at their defaults. -/
def reqAmo : AnalyzeRequest := { text := "amo" }

/-! ## Helper lemmas -/

/-- Once an initialization attempt has been recorded, `_ensure_initialized`
is a no-op and performs no construction. -/
theorem ensureInit_of_attempted (s : CLTKService) (c : Except String NLP)
    (h : s.attempted = true) : s.ensureInit c = (s, false) := by
  simp [CLTKService.ensureInit, h]

/-- With a loaded pipeline, `_ensure_initialized` is a no-op. -/
theorem ensureInit_of_some (s : CLTKService) (c : Except String NLP)
    (h : s.nlp.isSome = true) : s.ensureInit c = (s, false) := by
  simp [CLTKService.ensureInit, h]

/-- Once an attempt has been recorded, every operation leaves the state
unchanged and performs no construction. -/
theorem step_of_attempted (s : CLTKService) (op : Op)
    (h : s.attempted = true) : s.step op = (s, 0) := by
  cases op <;> simp [CLTKService.step, ensureInit_of_attempted s _ h]

/-- Once an attempt has been recorded, whole operation sequences leave the
state unchanged and perform no construction. -/
theorem run_of_attempted (s : CLTKService) (ops : List Op)
    (h : s.attempted = true) : s.run ops = (s, 0) := by
  induction ops with
  | nil => rfl
  | cons op ops ih =>
      simp [CLTKService.run, step_of_attempted s op h, ih]

/-- With a loaded pipeline, every operation leaves the state unchanged and
performs no construction. -/
theorem step_of_some (s : CLTKService) (op : Op)
    (h : s.nlp.isSome = true) : s.step op = (s, 0) := by
  cases op <;> simp [CLTKService.step, ensureInit_of_some s _ h]

/-- A fired initialization attempt records `attempted`. -/
theorem ensureInit_fires (s : CLTKService) (c : Except String NLP)
    (hn : s.nlp.isSome = false) (ha : s.attempted = false) :
    (s.ensureInit c).1.attempted = true ∧ (s.ensureInit c).2 = true := by
  cases c <;> simp [CLTKService.ensureInit, hn, ha]

/-- Any operation sequence performs at most one construction attempt. -/
theorem run_attempts_le_one (ops : List Op) (s : CLTKService) :
    (s.run ops).2 ≤ 1 := by
  induction ops generalizing s with
  | nil => simp [CLTKService.run]
  | cons op ops ih =>
      by_cases ha : s.attempted = true
      · simp [CLTKService.run, step_of_attempted s op ha, run_of_attempted s ops ha]
      · have ha' : s.attempted = false := by simpa using ha
        by_cases hn : s.nlp.isSome = true
        · simp [CLTKService.run, step_of_some s op hn]
          exact ih s
        · have hn' : s.nlp.isSome = false := by simpa using hn
          cases op with
          | getInitError => simpa [CLTKService.run, CLTKService.step] using ih s
          | analyzeText t im idep => simpa [CLTKService.run, CLTKService.step] using ih s
          | isReady c =>
              obtain ⟨h1, h2⟩ := ensureInit_fires s c hn' ha'
              simp [CLTKService.run, CLTKService.step, h2,
                run_of_attempted _ ops h1]
          | analyzeEndpoint c req =>
              obtain ⟨h1, h2⟩ := ensureInit_fires s c hn' ha'
              simp [CLTKService.run, CLTKService.step, h2,
                run_of_attempted _ ops h1]
          | healthCheck c =>
              obtain ⟨h1, h2⟩ := ensureInit_fires s c hn' ha'
              simp [CLTKService.run, CLTKService.step, h2,
                run_of_attempted _ ops h1]

/-- The loop of `analyze_text` produces one record per word. -/
theorem analyzeWords_length (im idep : Bool) (k : Nat) (ws : List Word) :
    (analyzeWords im idep k ws).length = ws.length := by
  induction ws generalizing k with
  | nil => rfl
  | cons w ws ih => simp [analyzeWords, ih]

/-- The record at position `i` of the loop output comes from the word at
position `i`, analyzed with the running index. -/
theorem analyzeWords_getElem (im idep : Bool) (k i : Nat) (ws : List Word) :
    (analyzeWords im idep k ws)[i]? =
      ws[i]?.map (fun w => analyzeWord (k + i) im idep w) := by
  induction ws generalizing k i with
  | nil => simp [analyzeWords]
  | cons w ws ih =>
      cases i with
      | zero => simp [analyzeWords]
      | succ i =>
          have harith : k + (i + 1) = (k + 1) + i := by omega
          simp [analyzeWords, ih (k + 1) i, harith]

/-- Projections of one loop iteration: form, lemma, POS and index are
copied straight off the word object. -/
theorem analyzeWord_spec (i : Nat) (im idep : Bool) (w : Word) :
    (analyzeWord i im idep w).form = w.string ∧
    (analyzeWord i im idep w).«lemma» = w.«lemma» ∧
    (analyzeWord i im idep w).pos = w.upos ∧
    (analyzeWord i im idep w).index = i := by
  refine ⟨rfl, ?_, ?_, rfl⟩
  · cases h : w.«lemma» <;> simp [analyzeWord, h]
  · cases h : w.upos <;> simp [analyzeWord, h]

/-- With `include_morphology=False` every record's morphology is `None`. -/
theorem analyzeWord_morphology_off (i : Nat) (idep : Bool) (w : Word) :
    (analyzeWord i false idep w).morphology = none := by
  simp [analyzeWord]

/-- With `include_dependencies=False` every record's dependency is `None`. -/
theorem analyzeWord_dependency_off (i : Nat) (im : Bool) (w : Word) :
    (analyzeWord i im false w).dependency = none := by
  simp [analyzeWord]

/-- List version of `analyzeWord_morphology_off`. -/
theorem analyzeWords_morphology_off (idep : Bool) (k : Nat) (ws : List Word) :
    ∀ rec ∈ analyzeWords false idep k ws, rec.morphology = none := by
  induction ws generalizing k with
  | nil => intro rec h; simp [analyzeWords] at h
  | cons w ws ih =>
      intro rec h
      rcases List.mem_cons.mp h with h | h
      · rw [h]; exact analyzeWord_morphology_off k idep w
      · exact ih (k + 1) rec h

/-- List version of `analyzeWord_dependency_off`. -/
theorem analyzeWords_dependency_off (im : Bool) (k : Nat) (ws : List Word) :
    ∀ rec ∈ analyzeWords im false k ws, rec.dependency = none := by
  induction ws generalizing k with
  | nil => intro rec h; simp [analyzeWords] at h
  | cons w ws ih =>
      intro rec h
      rcases List.mem_cons.mp h with h | h
      · rw [h]; exact analyzeWord_dependency_off k im w
      · exact ih (k + 1) rec h

/-- The step function preserves the invariant "a loaded pipeline excludes
a recorded initialization error". -/
theorem inv_step (s : CLTKService) (op : Op)
    (h : s.nlp.isSome = true → s.init_error = none) :
    (s.step op).1.nlp.isSome = true → (s.step op).1.init_error = none := by
  by_cases ha : s.attempted = true
  · rw [step_of_attempted s op ha]; exact h
  · have ha' : s.attempted = false := by simpa using ha
    by_cases hn : s.nlp.isSome = true
    · rw [step_of_some s op hn]; exact h
    · have hn' : s.nlp.isSome = false := by simpa using hn
      cases op with
      | getInitError => exact h
      | analyzeText t im idep => exact h
      | isReady c =>
          cases c <;> simp [CLTKService.step, CLTKService.ensureInit, hn', ha']
      | analyzeEndpoint c req =>
          cases c <;> simp [CLTKService.step, CLTKService.ensureInit, hn', ha']
      | healthCheck c =>
          cases c <;> simp [CLTKService.step, CLTKService.ensureInit, hn', ha']

/-- The invariant holds after any operation sequence from a state that
satisfies it. -/
theorem inv_run (ops : List Op) (s : CLTKService)
    (h : s.nlp.isSome = true → s.init_error = none) :
    (s.run ops).1.nlp.isSome = true → (s.run ops).1.init_error = none := by
  induction ops generalizing s with
  | nil => exact h
  | cons op ops ih => exact ih (s.step op).1 (inv_step s op h)

/-! ## Claim theorems -/

/-- C1: Initialization is lazy and guarded, attempted at most once per
instance: `__init__` constructs no pipeline (`nlp` starts as `None`, no
attempt recorded), the first `_ensure_initialized` call performs exactly
one construction attempt whatever its outcome, any operation sequence
performs at most one attempt in total, and after the first attempt every
later `_ensure_initialized` call returns the cached state with no second
attempt, even when the first attempt failed. -/
theorem c1_lazy_init_at_most_once (ops : List Op) (c c' : Except String NLP) :
    CLTKService.mkInit.nlp = none ∧
    CLTKService.mkInit.attempted = false ∧
    (CLTKService.mkInit.ensureInit c).2 = true ∧
    (CLTKService.mkInit.run ops).2 ≤ 1 ∧
    ((CLTKService.mkInit.ensureInit c).1.ensureInit c') =
      ((CLTKService.mkInit.ensureInit c).1, false) := by
  have hfire := ensureInit_fires CLTKService.mkInit c rfl rfl
  exact ⟨rfl, rfl, hfire.2, run_attempts_le_one ops _,
    ensureInit_of_attempted _ c' hfire.1⟩

/-- C2: On an initialized service whose pipeline returns a document,
`analyze_text` returns one `WordAnalysis` per word of `doc.words`, in
order: the record at position `i` has `form` the word's `string`,
`lemma` the word's lemma attribute, `pos` the word's `upos` attribute and
`index = i`, and the list's length equals the number of words. -/
theorem c2_one_record_per_word (s : CLTKService) (p : NLP) (doc : Doc)
    (text : String) (im idep : Bool)
    (hnlp : s.nlp = some p) (hdoc : p.analyze text = .ok doc) :
    ∃ l, s.analyze_text text im idep = .ok l ∧
      l.length = doc.words.length ∧
      ∀ (i : Nat) (w : Word), doc.words[i]? = some w →
        ∃ rec : WordAnalysis, l[i]? = some rec ∧ rec.form = w.string ∧
          rec.«lemma» = w.«lemma» ∧ rec.pos = w.upos ∧ rec.index = i := by
  refine ⟨analyzeWords im idep 0 doc.words, ?_, analyzeWords_length im idep 0 doc.words, ?_⟩
  · simp [CLTKService.analyze_text, hnlp, hdoc]
  · intro i w hw
    obtain ⟨h1, h2, h3, h4⟩ := analyzeWord_spec (0 + i) im idep w
    refine ⟨analyzeWord (0 + i) im idep w, ?_, h1, h2, h3, ?_⟩
    · rw [analyzeWords_getElem, hw]; rfl
    · rw [h4]; omega

/-- Witness for C2 at a concrete ready service and one-word document. -/
theorem c2_one_record_per_word_witness :
    readyService.nlp = some testNLP ∧
    testNLP.analyze ("amo") = .ok testDoc ∧
    (∃ l, readyService.analyze_text ("amo") true false = .ok l ∧
      l.length = testDoc.words.length ∧
      ∀ (i : Nat) (w : Word), testDoc.words[i]? = some w →
        ∃ rec : WordAnalysis, l[i]? = some rec ∧ rec.form = w.string ∧
          rec.«lemma» = w.«lemma» ∧ rec.pos = w.upos ∧ rec.index = i) :=
  ⟨rfl, rfl, c2_one_record_per_word readyService testNLP testDoc ("amo") true false rfl rfl⟩

/-- C5: A failed lazy initialization is caught and recorded: after the
single attempt raised `e`, `nlp` is still `None`, the recorded error is
`str(e)`, `is_ready` reported `False` on the triggering call and keeps
reporting `False` after any further operation sequence; after a
successful attempt `is_ready` reports `True` and no error is recorded. -/
theorem c5_init_failure_caught (e : String) (p : NLP) (ops : List Op)
    (c c' : Except String NLP) :
    (CLTKService.mkInit.is_ready (.error e)).2 = false ∧
    (CLTKService.mkInit.ensureInit (.error e)).1.nlp = none ∧
    (CLTKService.mkInit.ensureInit (.error e)).1.get_init_error = some e ∧
    ((((CLTKService.mkInit.ensureInit (.error e)).1.run ops).1.is_ready c).2 = false) ∧
    ((CLTKService.mkInit.ensureInit (.ok p)).1.is_ready c').2 = true ∧
    (CLTKService.mkInit.ensureInit (.ok p)).1.get_init_error = none := by
  have hrun := run_of_attempted (CLTKService.mkInit.ensureInit (.error e)).1 ops rfl
  refine ⟨rfl, rfl, rfl, ?_, rfl, rfl⟩
  rw [hrun]
  rfl

/-- C9: After a readiness check that returned `True`, the
`RuntimeError("CLTK is not initialized")` guard of `analyze_text` is
unreachable: the call never produces that error. -/
theorem c9_guard_unreachable (s : CLTKService) (c : Except String NLP)
    (text : String) (im idep : Bool)
    (h : (s.is_ready c).2 = true) :
    (s.is_ready c).1.analyze_text text im idep ≠ .error .notReady := by
  have hsome : ((s.ensureInit c).1.nlp).isSome = true := h
  obtain ⟨p, hp⟩ := Option.isSome_iff_exists.mp hsome
  intro hcontra
  have hcontra' : (s.ensureInit c).1.analyze_text text im idep =
      .error .notReady := hcontra
  cases hpa : p.analyze text <;>
    simp [CLTKService.analyze_text, hp, hpa] at hcontra'

/-- Witness for C9 at a concrete ready service. -/
theorem c9_guard_unreachable_witness :
    (readyService.is_ready (.ok testNLP)).2 = true ∧
    (readyService.is_ready (.ok testNLP)).1.analyze_text ("amo") true false ≠
      .error .notReady :=
  ⟨rfl, c9_guard_unreachable readyService (.ok testNLP) "amo" true false rfl⟩

/-- C10: `/health` always reports `status="healthy"` and version
`"1.0.0"`; the readiness flag is exactly `is_ready()`'s answer, and the
call runs the lazy initialization attempt (the resulting service state is
the `_ensure_initialized` post-state). -/
theorem c10_health_always_healthy (s : CLTKService) (c : Except String NLP) :
    (health_check s c).2.status = "healthy" ∧
    (health_check s c).2.version = "1.0.0" ∧
    (health_check s c).2.cltk_ready = (s.is_ready c).2 ∧
    (health_check s c).1 = (s.ensureInit c).1 :=
  ⟨rfl, rfl, rfl, rfl⟩

/-- C3: Absent data maps to `None`, not an error: a word without a lemma
attribute yields `lemma=None`; without `upos`, `pos=None`; without a
`features` attribute, or with an empty (falsy) feature bundle,
`morphology=None`; a dependency record built for a word without a
`governor` attribute carries `governor=None`; on a non-empty bundle each
of the eight morphology fields is the bundle's attribute lookup for that
name; and a lookup for a name the bundle does not carry yields `None`. -/
theorem c3_absent_data_none (i : Nat) (im idep : Bool) (w : Word)
    (rel name : String) (nv : String × String) (rest f : FeatureBundle) :
    (analyzeWord i im idep { w with «lemma» := none }).«lemma» = none ∧
    (analyzeWord i im idep { w with upos := none }).pos = none ∧
    (analyzeWord i im idep { w with features := none }).morphology = none ∧
    (analyzeWord i im idep { w with features := some [] }).morphology = none ∧
    (analyzeWord i im true
        { w with dependency_relation := some rel, governor := none }).dependency =
      some { relation := rel, governor := none } ∧
    (∃ m : MorphologyData,
      (analyzeWord i true idep { w with features := some (nv :: rest) }).morphology =
        some m ∧
      m.case = FeatureBundle.getattr (nv :: rest) ("case") ∧
      m.number = FeatureBundle.getattr (nv :: rest) ("number") ∧
      m.gender = FeatureBundle.getattr (nv :: rest) ("gender") ∧
      m.tense = FeatureBundle.getattr (nv :: rest) ("tense") ∧
      m.voice = FeatureBundle.getattr (nv :: rest) ("voice") ∧
      m.mood = FeatureBundle.getattr (nv :: rest) ("mood") ∧
      m.person = FeatureBundle.getattr (nv :: rest) ("person") ∧
      m.degree = FeatureBundle.getattr (nv :: rest) ("degree")) ∧
    ((∀ pr ∈ f, pr.1 ≠ name) → f.getattr name = none) := by
  refine ⟨by simp [analyzeWord], by simp [analyzeWord], ?_, ?_, ?_, ?_, ?_⟩
  · simp [analyzeWord]
  · simp [analyzeWord, CLTKService.parse_morphology, FeatureBundle.isEmpty]
  · simp [analyzeWord]
  · refine ⟨⟨FeatureBundle.getattr (nv :: rest) ("case"),
      FeatureBundle.getattr (nv :: rest) ("number"),
      FeatureBundle.getattr (nv :: rest) ("gender"),
      FeatureBundle.getattr (nv :: rest) ("tense"),
      FeatureBundle.getattr (nv :: rest) ("voice"),
      FeatureBundle.getattr (nv :: rest) ("mood"),
      FeatureBundle.getattr (nv :: rest) ("person"),
      FeatureBundle.getattr (nv :: rest) ("degree")⟩,
      ?_, rfl, rfl, rfl, rfl, rfl, rfl, rfl, rfl⟩
    simp [analyzeWord, CLTKService.parse_morphology, FeatureBundle.isEmpty]
  · intro h
    have hfind : List.find? (fun pr => pr.1 == name) f = none := by
      rw [List.find?_eq_none]
      intro x hx
      simpa using h x hx
    simp [FeatureBundle.getattr, hfind]

/-- Witness for C3 at a concrete word and bundles. -/
theorem c3_absent_data_none_witness :
    (analyzeWord 0 true true { wordAmo with «lemma» := none }).«lemma» = none ∧
    (analyzeWord 0 true true { wordAmo with upos := none }).pos = none ∧
    (analyzeWord 0 true true { wordAmo with features := none }).morphology = none ∧
    (analyzeWord 0 true true { wordAmo with features := some [] }).morphology = none ∧
    (analyzeWord 0 true true
        { wordAmo with dependency_relation := some ("root"), governor := none }).dependency =
      some { relation := "root", governor := none } ∧
    (∃ m : MorphologyData,
      (analyzeWord 0 true true
          { wordAmo with features := some (("case", "Nom") :: []) }).morphology = some m ∧
      m.case = FeatureBundle.getattr (("case", "Nom") :: []) ("case") ∧
      m.number = FeatureBundle.getattr (("case", "Nom") :: []) ("number") ∧
      m.gender = FeatureBundle.getattr (("case", "Nom") :: []) ("gender") ∧
      m.tense = FeatureBundle.getattr (("case", "Nom") :: []) ("tense") ∧
      m.voice = FeatureBundle.getattr (("case", "Nom") :: []) ("voice") ∧
      m.mood = FeatureBundle.getattr (("case", "Nom") :: []) ("mood") ∧
      m.person = FeatureBundle.getattr (("case", "Nom") :: []) ("person") ∧
      m.degree = FeatureBundle.getattr (("case", "Nom") :: []) ("degree")) ∧
    (∀ pr ∈ ([("case", "Nom")] : FeatureBundle), pr.1 ≠ "mood") ∧
    FeatureBundle.getattr [("case", "Nom")] ("mood") = none := by
  have h := c3_absent_data_none 0 true true wordAmo ("root") ("mood")
    ("case", "Nom") [] [("case", "Nom")]
  exact ⟨h.1, h.2.1, h.2.2.1, h.2.2.2.1, h.2.2.2.2.1, h.2.2.2.2.2.1,
    by decide, h.2.2.2.2.2.2 (by decide)⟩

/-- C4: Analysis errors are forwarded, not propagated: when the readiness
check passed but `analyze_text` raises `e`, the `/analyze` handler returns
a normal response with `success=False`, empty `words`, `error=str(e)` and
the request's text; when `analyze_text` returns a word list, the handler
returns `success=True`, that list, `error=None` and the request's text. -/
theorem c4_errors_forwarded (s : CLTKService) (c : Except String NLP)
    (req : AnalyzeRequest) (e : AnalysisError) (ws : List WordAnalysis)
    (hready : (s.is_ready c).2 = true) :
    ((s.is_ready c).1.analyze_text req.text req.include_morphology
        req.include_dependencies = .error e →
      (analyze_endpoint s c req).2.1 =
        .response ⟨false, [], req.text, some e.str⟩) ∧
    ((s.is_ready c).1.analyze_text req.text req.include_morphology
        req.include_dependencies = .ok ws →
      (analyze_endpoint s c req).2.1 =
        .response ⟨true, ws, req.text, none⟩) := by
  constructor <;> intro hres <;> simp [analyze_endpoint, hready, hres]

/-- Witness for C4: a pipeline that raises and one that succeeds. -/
theorem c4_errors_forwarded_witness :
    (failReadyService.is_ready (.ok testNLP)).2 = true ∧
    (failReadyService.is_ready (.ok testNLP)).1.analyze_text ("amo") true false =
      .error (.pipelineError ("boom")) ∧
    (analyze_endpoint failReadyService (.ok testNLP) reqAmo).2.1 =
      .response ⟨false, [], "amo", some ("boom")⟩ ∧
    (readyService.is_ready (.ok testNLP)).2 = true ∧
    (readyService.is_ready (.ok testNLP)).1.analyze_text ("amo") true false =
      .ok (analyzeWords true false 0 testDoc.words) ∧
    (analyze_endpoint readyService (.ok testNLP) reqAmo).2.1 =
      .response ⟨true, analyzeWords true false 0 testDoc.words, "amo", none⟩ := by
  refine ⟨rfl, rfl, ?_, rfl, rfl, ?_⟩
  · exact (c4_errors_forwarded failReadyService (.ok testNLP) reqAmo
      (.pipelineError ("boom")) [] rfl).1 rfl
  · exact (c4_errors_forwarded readyService (.ok testNLP) reqAmo
      .notReady (analyzeWords true false 0 testDoc.words) rfl).2 rfl

/-- C6: A not-ready service makes `/analyze` raise HTTP 503 without ever
invoking `analyze_text`; `analyze_text` is invoked only when the
request's readiness check returned `True`. -/
theorem c6_not_ready_503 (s : CLTKService) (c : Except String NLP)
    (req : AnalyzeRequest) :
    ((s.is_ready c).2 = false →
      (analyze_endpoint s c req).2.1 =
        .httpError 503 ("CLTK service is not ready. Please try again later.") ∧
      (analyze_endpoint s c req).2.2 = false) ∧
    ((analyze_endpoint s c req).2.2 = true → (s.is_ready c).2 = true) := by
  constructor
  · intro h
    constructor <;> simp [analyze_endpoint, h]
  · intro h
    by_cases hr : (s.is_ready c).2 = true
    · exact hr
    · have hf : (s.is_ready c).2 = false := by simpa using hr
      simp [analyze_endpoint, hf] at h

/-- Witness for C6: a failed-initialization service and a ready one. -/
theorem c6_not_ready_503_witness :
    (CLTKService.mkInit.is_ready (.error ("boom"))).2 = false ∧
    (analyze_endpoint CLTKService.mkInit (.error ("boom")) reqAmo).2.1 =
      .httpError 503 ("CLTK service is not ready. Please try again later.") ∧
    (analyze_endpoint CLTKService.mkInit (.error ("boom")) reqAmo).2.2 = false ∧
    (analyze_endpoint readyService (.ok testNLP) reqAmo).2.2 = true ∧
    (readyService.is_ready (.ok testNLP)).2 = true := by
  have h1 := (c6_not_ready_503 CLTKService.mkInit (.error ("boom")) reqAmo).1 rfl
  exact ⟨rfl, h1.1, h1.2, rfl,
    (c6_not_ready_503 readyService (.ok testNLP) reqAmo).2 rfl⟩

/-- C7: The optional sections obey the request flags: with
`include_morphology=False` every returned record has `morphology=None`;
with `include_dependencies=False` every record has `dependency=None`; the
request defaults are `include_morphology=True` and
`include_dependencies=False`. -/
theorem c7_optional_flags (s : CLTKService) (text : String) (im idep : Bool)
    (l : List WordAnalysis) (t : String)
    (h : s.analyze_text text im idep = .ok l) :
    (im = false → ∀ rec ∈ l, rec.morphology = none) ∧
    (idep = false → ∀ rec ∈ l, rec.dependency = none) ∧
    ({ text := t } : AnalyzeRequest).include_morphology = true ∧
    ({ text := t } : AnalyzeRequest).include_dependencies = false := by
  cases hn : s.nlp with
  | none => simp [CLTKService.analyze_text, hn] at h
  | some p =>
      cases hpa : p.analyze text with
      | error msg => simp [CLTKService.analyze_text, hn, hpa] at h
      | ok doc =>
          simp [CLTKService.analyze_text, hn, hpa] at h
          subst h
          refine ⟨?_, ?_, rfl, rfl⟩
          · intro him
            subst him
            exact analyzeWords_morphology_off idep 0 doc.words
          · intro hidep
            subst hidep
            exact analyzeWords_dependency_off im 0 doc.words

/-- Witness for C7 with both flags off on a ready service. -/
theorem c7_optional_flags_witness :
    readyService.analyze_text ("amo") false false =
      .ok (analyzeWords false false 0 testDoc.words) ∧
    (∀ rec ∈ analyzeWords false false 0 testDoc.words, rec.morphology = none) ∧
    (∀ rec ∈ analyzeWords false false 0 testDoc.words, rec.dependency = none) ∧
    ({ text := "amo" } : AnalyzeRequest).include_morphology = true ∧
    ({ text := "amo" } : AnalyzeRequest).include_dependencies = false := by
  have h := c7_optional_flags readyService ("amo") false false
    (analyzeWords false false 0 testDoc.words) "amo" rfl
  exact ⟨rfl, h.1 rfl, h.2.1 rfl, h.2.2.1, h.2.2.2⟩

/-- C8: In every reachable service state a loaded pipeline excludes a
recorded initialization error (so `is_ready()=True` implies
`get_initialization_error()=None`), and once the pipeline is loaded no
operation changes the state at all — in particular none resets `nlp`. -/
theorem c8_ready_excludes_error (ops : List Op) (s : CLTKService) (op : Op)
    (c : Except String NLP) :
    ((CLTKService.mkInit.run ops).1.nlp.isSome = true →
      (CLTKService.mkInit.run ops).1.init_error = none) ∧
    (((CLTKService.mkInit.run ops).1.is_ready c).2 = true →
      ((CLTKService.mkInit.run ops).1.is_ready c).1.get_init_error = none) ∧
    (s.nlp.isSome = true → s.step op = (s, 0)) := by
  have hinv := inv_run ops CLTKService.mkInit (fun _ => rfl)
  refine ⟨hinv, ?_, fun h => step_of_some s op h⟩
  intro h
  exact inv_step (CLTKService.mkInit.run ops).1 (.isReady c) hinv h

/-- Witness for C8 after one successful readiness check. -/
theorem c8_ready_excludes_error_witness :
    (CLTKService.mkInit.run [Op.isReady (.ok testNLP)]).1.nlp.isSome = true ∧
    (CLTKService.mkInit.run [Op.isReady (.ok testNLP)]).1.init_error = none ∧
    ((CLTKService.mkInit.run [Op.isReady (.ok testNLP)]).1.is_ready (.ok testNLP)).2 = true ∧
    ((CLTKService.mkInit.run [Op.isReady (.ok testNLP)]).1.is_ready
        (.ok testNLP)).1.get_init_error = none ∧
    readyService.nlp.isSome = true ∧
    readyService.step .getInitError = (readyService, 0) := by
  have h := c8_ready_excludes_error [Op.isReady (.ok testNLP)] readyService
    .getInitError (.ok testNLP)
  exact ⟨rfl, h.1 rfl, rfl, h.2.1 rfl, rfl, h.2.2 rfl⟩

end Interlinear
